import Mathlib

/-!
Shallow embedding of the transition engine of `custom_components/ha-rpi_gpio_pwm`.

The executed program lives in `light.py`: the platform constructs `PwmSimpleLed`
entities whose `_transition` method builds the `Transition` class defined in
`light.py` itself and hands it to the `TransitionManager` defined there.  The
sibling file `transition.py` contains a stale variant of the same class (it is
imported by nothing in the repository); it is embedded separately at the end of
this file under the namespace `TransitionsModule` so the two variants can be
compared.

Brightness values are Python floats that may also be `None`; they are modelled
as `Option ℚ`, with `none` standing for the Python `None` and exact rational
arithmetic standing in for IEEE floats.  The monotonic clock
(`time.perf_counter()`) is modelled by passing the sampled time `now : ℚ`
explicitly to every operation that reads the clock.  The `threading.Event`
`_finish_event` is modelled by its boolean `is_set` state, and actuator writes
performed by a call are additionally returned as an explicit list so that
"no write happens" is directly statable.
-/

/-- State of a `PwmSimpleLed` entity as far as the transition engine touches it:
`_brightness` (the entity attribute), the hardware level `_led.value`, and
`_is_on`.  `fails` models an actuator whose hardware write
(`self._led.value = value`) raises; it is only consulted by the
exception-aware model `set_brightnessE` below. -/
structure LedState where
  brightness : Option ℚ
  value : Option ℚ
  is_on : Bool
  fails : Bool
  deriving Repr, DecidableEq

/-- Model of the successful execution of `PwmSimpleLed.set_brightness`
(light.py lines 149-158): stores the value, writes it to the hardware, and
recomputes `_is_on` (Python `value == 0` is `False` when `value` is `None`).
Faithful for defined (`some`) values; for a `none` argument the real method
raises before any assignment — the logging call on line 150 evaluates
`_to_hass_brightness(value)`, which computes `value * 255` and raises
`TypeError` for `None` — so that error path, like a failing hardware write, is
modelled by `set_brightnessE` below. -/
def set_brightness (led : LedState) (v : Option ℚ) : LedState :=
  { led with
    brightness := v
    value := v
    is_on := if v = some 0 then false else true }

/-- The `Transition` class of light.py (lines 176-288): constructor arguments,
the `_cancelled` flag, the `is_set` state of `_finish_event`, and the
`_start_time` sample taken at construction. -/
structure Transition where
  duration : ℚ
  from_brightness : Option ℚ
  to_brightness : Option ℚ
  cancelled : Bool
  finish_event : Bool
  start_time : ℚ
  deriving Repr, DecidableEq

namespace Transition

/-- Model of `Transition.__init__` (light.py lines 180-196).  Besides recording the
fields and the clock sample `now`, the last statement of the constructor is
`self._led.set_brightness(from_brightness)`, so construction returns the
updated led as well. -/
def create (led : LedState) (duration : ℚ) (from_brightness to_brightness : Option ℚ)
    (now : ℚ) : Transition × LedState :=
  (⟨duration, from_brightness, to_brightness, false, false, now⟩,
   set_brightness led from_brightness)

/-- Model of `Transition.progress` (light.py lines 206-216), sampled at time `now`. -/
def progress (t : Transition) (now : ℚ) : ℚ :=
  if t.duration = 0 then 1
  else max 0 (min 1 ((now - t.start_time) / t.duration))

/-- Model of `Transition._interpolate` (light.py lines 261-269), sampled at time `now`. -/
def interpolate (t : Transition) (now : ℚ) (start stop : ℚ) : ℚ :=
  start + t.progress now * (stop - start)

/-- Model of `Transition.step` (light.py lines 234-259) together with
`Transition._finish` (lines 271-276), sampled at time `now`.  Returns the new
transition state, the new led state, and the list of actuator writes the call
performed (in order).  The locals `state`, `src_is_on` and `dest_is_on` of the
source are computed but never used (the legacy lines 249-254 that used them are
commented out), so they do not appear here.  This is the no-exception model:
every performed write is assumed to succeed, which holds for defined (`some`)
values on a healthy actuator; a write of `none` or a write on a failing
actuator raises in the source and is modelled by `stepE` below. -/
def step (t : Transition) (led : LedState) (now : ℚ) :
    Transition × LedState × List (Option ℚ) :=
  if t.cancelled || t.finish_event then (t, led, [])
  else if t.progress now = 1 then
    ({ t with finish_event := true }, set_brightness led t.to_brightness, [t.to_brightness])
  else
    match t.from_brightness, t.to_brightness with
    | some src, some dest =>
        (t, set_brightness led (some (t.interpolate now src dest)),
         [some (t.interpolate now src dest)])
    | _, _ => (t, led, [])

/-- Model of `Transition.cancel` (light.py lines 285-288): sets `_cancelled` and the
finish event; touches no led. -/
def cancel (t : Transition) : Transition :=
  { t with cancelled := true, finish_event := true }

/-- Model of the `finished` property (light.py lines 219-224). -/
def finished (t : Transition) : Bool :=
  t.finish_event

/-- A sequence of `step()` calls at the given sample times, threading the
transition and led states and concatenating the writes. -/
def stepMany (t : Transition) (led : LedState) (times : List ℚ) :
    Transition × LedState × List (Option ℚ) :=
  match times with
  | [] => (t, led, [])
  | now :: rest =>
      let r := t.step led now
      let r2 := stepMany r.1 r.2.1 rest
      (r2.1, r2.2.1, r.2.2 ++ r2.2.2)

end Transition

/-! ### TransitionManager (light.py lines 311-347)

The active collection `self._transitions` of the worker is a Python list of object
references; `list.remove` deletes the first element equal (here: identical) to
its argument.  The heap of transition objects is modelled as a store
`σ : Nat → Transition × LedState` mapping each object identity to the mutable
object state (the transition together with the led it references), and the
list holds the identities.  A `for` loop over a Python list is an index-based
iterator: it keeps a cursor `i`, yields `l[i]` while `i < len(l)`, and reads
the *current* list on every test, so removals during iteration shift later
elements under the cursor. -/

/-- Pointwise update of the object store (assignment to a field of the object
named `id`). -/
def update (σ : Nat → Transition × LedState) (id : Nat) (v : Transition × LedState) :
    Nat → Transition × LedState :=
  fun j => if j = id then v else σ j

/-- One pass of the `for transition in self._transitions` loop of
`TransitionManager._transition_loop` (light.py lines 342-345), from cursor
position `i`: step `l[i]`, remove it when its finish event is set, advance the
cursor.  Returns the final store, the final list, and the identities that were
stepped, in order.  `fuel` is structural-recursion fuel only: each iteration
increments `i` and never lengthens `l`, so any `fuel ≥ l.length - i` makes the
`fuel = 0` branch unreachable; the wrapper below supplies `l.length`. -/
def transition_loop_go (now : ℚ) :
    Nat → (Nat → Transition × LedState) → List Nat → Nat →
    (Nat → Transition × LedState) × List Nat × List Nat
  | 0, σ, l, _ => (σ, l, [])
  | fuel + 1, σ, l, i =>
    if h : i < l.length then
      let id := l.get ⟨i, h⟩
      let r := Transition.step (σ id).1 (σ id).2 now
      let σ2 := update σ id (r.1, r.2.1)
      let l2 := if r.1.finish_event then l.erase id else l
      let rest := transition_loop_go now fuel σ2 l2 (i + 1)
      (rest.1, rest.2.1, id :: rest.2.2)
    else (σ, l, [])

/-- One full pass of the `for` body of `_transition_loop` over the current
active list (cursor starting at 0). -/
def transition_loop_pass (now : ℚ) (σ : Nat → Transition × LedState) (l : List Nat) :
    (Nat → Transition × LedState) × List Nat × List Nat :=
  transition_loop_go now l.length σ l 0

/-! ### Exception-aware model for actuator-write failures

`_transition_loop` contains no `try`/`except`; if `set_brightness` raises while
a transition is stepped, the exception propagates out of the `for` loop and the
`while` loop and kills the worker thread.  Raises happen on a `None` argument
(`TypeError` from `_to_hass_brightness` in the logging on light.py line 150,
before any assignment) and on a failing hardware write; `LedState.fails` marks
an actuator whose hardware write (`self._led.value = value`, light.py line 153)
raises.  The `E` variants below propagate these exceptions; `Except.error`
carries the state at the moment the exception escapes. -/

/-- Model of `set_brightness` when a call may raise.  Two raise sites exist in
the source.  First, the logging call on line 150 evaluates
`_to_hass_brightness(value)`, i.e. `value * 255`, which raises `TypeError`
whenever `value` is `None` — before `self._brightness = value` on line 152, so
the led is left completely unchanged.  Second, for a defined value,
`self._brightness = value` (line 152) is assigned first and then
`self._led.value = value` (line 153) raises for a failing actuator, so `_is_on`
is not recomputed. -/
def set_brightnessE (led : LedState) (v : Option ℚ) : Except LedState LedState :=
  match v with
  | none => Except.error led
  | some _ =>
      if led.fails then Except.error { led with brightness := v }
      else Except.ok (set_brightness led v)

/-- Model of `Transition.step` with possibly-raising actuator writes.  In
`_finish` (light.py lines 271-276) the write precedes
`self._finish_event.set()`, so a raising write — in particular every write of a
`None` end level — leaves the finish event unset and the transition state
untouched. -/
def Transition.stepE (t : Transition) (led : LedState) (now : ℚ) :
    Except (Transition × LedState) (Transition × LedState × List (Option ℚ)) :=
  if t.cancelled || t.finish_event then Except.ok (t, led, [])
  else if t.progress now = 1 then
    match set_brightnessE led t.to_brightness with
    | Except.error led2 => Except.error (t, led2)
    | Except.ok led2 => Except.ok ({ t with finish_event := true }, led2, [t.to_brightness])
  else
    match t.from_brightness, t.to_brightness with
    | some src, some dest =>
        match set_brightnessE led (some (t.interpolate now src dest)) with
        | Except.error led2 => Except.error (t, led2)
        | Except.ok led2 => Except.ok (t, led2, [some (t.interpolate now src dest)])
    | _, _ => Except.ok (t, led, [])

/-- One pass of the `for` loop when steps may raise.  The fourth component is
`true` when an exception escaped: the loop then stops at the raising
transition, which is not removed from the list, and no later element is
visited. -/
def transition_loop_goE (now : ℚ) :
    Nat → (Nat → Transition × LedState) → List Nat → Nat →
    (Nat → Transition × LedState) × List Nat × List Nat × Bool
  | 0, σ, l, _ => (σ, l, [], false)
  | fuel + 1, σ, l, i =>
    if h : i < l.length then
      let id := l.get ⟨i, h⟩
      match Transition.stepE (σ id).1 (σ id).2 now with
      | Except.error r => (update σ id r, l, [id], true)
      | Except.ok r =>
        let σ2 := update σ id (r.1, r.2.1)
        let l2 := if r.1.finish_event then l.erase id else l
        let rest := transition_loop_goE now fuel σ2 l2 (i + 1)
        (rest.1, rest.2.1, id :: rest.2.2.1, rest.2.2.2)
    else (σ, l, [], false)

/-- One full pass of the `for` body when steps may raise. -/
def transition_loop_passE (now : ℚ) (σ : Nat → Transition × LedState) (l : List Nat) :
    (Nat → Transition × LedState) × List Nat × List Nat × Bool :=
  transition_loop_goE now l.length σ l 0

/-! ### The stale `transition.py` variant

`transition.py` holds a second copy of the `Transition` class that nothing in
the repository imports (it itself imports `light`, and `light.py` uses its own
class).  Its constructor performs no led write, and the endpoint-rewriting
logic that is commented out in `light.py` (lines 249-254) is live there
(transition.py lines 79-84).  Embedded here for comparison; `duration`,
`progress`, `_interpolate`, `_finish`, `cancel` are textually identical to the
light.py copies, so `Transition.progress`, `Transition.interpolate` and
`Transition.cancel` above are reused. -/

namespace TransitionsModule

/-- Model of `Transition.__init__` of transition.py (lines 11-26): records the fields
and the clock sample; performs no actuator write. -/
def create (duration : ℚ) (from_brightness to_brightness : Option ℚ) (now : ℚ) :
    Transition :=
  ⟨duration, from_brightness, to_brightness, false, false, now⟩

/-- Model of `Transition.step` of transition.py (lines 64-89), with the endpoint
rewriting of lines 74-84 live: `src_is_on = (from == 0)`, `dest_is_on =
(to == 0)` (Python `None == 0` is `False`); when `src_is_on` is `False` the
destination falls back to the source if it is `None` and the source is zeroed;
when `dest_is_on` is `False` the destination is zeroed. -/
def step (t : Transition) (led : LedState) (now : ℚ) :
    Transition × LedState × List (Option ℚ) :=
  if t.cancelled || t.finish_event then (t, led, [])
  else if t.progress now = 1 then
    ({ t with finish_event := true }, set_brightness led t.to_brightness, [t.to_brightness])
  else
    let src_is_on : Bool := t.from_brightness = some 0
    let dest_is_on : Bool := t.to_brightness = some 0
    let src1 : Option ℚ := t.from_brightness
    let dest1 : Option ℚ := t.to_brightness
    let dest2 : Option ℚ :=
      if src_is_on = false then (if dest1 = none then src1 else dest1) else dest1
    let src2 : Option ℚ := if src_is_on = false then some 0 else src1
    let dest3 : Option ℚ := if dest_is_on = false then some 0 else dest2
    match src2, dest3 with
    | some src, some dest =>
        (t, set_brightness led (some (t.interpolate now src dest)),
         [some (t.interpolate now src dest)])
    | _, _ => (t, led, [])

end TransitionsModule

/-! ### Concrete fixtures used by counterexamples and witnesses -/

/-- A healthy led sitting at level 0.7. -/
def led0 : LedState := ⟨some (7/10), some (7/10), true, false⟩

/-- A led whose hardware write raises. -/
def ledF : LedState := ⟨some 0, some 0, false, true⟩

/-- Three instant (duration 0) transitions, identities 0, 1, 2, each finishing
on its first step. -/
def sigma3 : Nat → Transition × LedState :=
  fun _ => (⟨0, some 0, some 1, false, false, 0⟩, led0)

/-- Two active instant transitions; the one with identity 0 drives the failing
led, so its completion write raises. -/
def sigma8 : Nat → Transition × LedState :=
  fun i => (⟨0, some 0, some 1, false, false, 0⟩, if i = 0 then ledF else led0)

/-! ### Helper lemmas -/

/-- Once the finish event is set, `step()` returns at its first guard, so any
sequence of further steps changes nothing and performs no write. -/
theorem stepMany_of_finished (t : Transition) (led : LedState) (times : List ℚ)
    (h : t.finish_event = true) : t.stepMany led times = (t, led, []) := by
  induction times with
  | nil => rfl
  | cons now rest ih =>
      simp only [Transition.stepMany, Transition.step, h, Bool.or_true, ite_true, ih,
        List.nil_append]

/-! ### Claims -/

/-- Claim C1: a `step()` taken while the transition is neither cancelled nor
finished, with progress strictly below 1 and both endpoints defined, writes
exactly `start_level + p * (end_level - start_level)` to the actuator — exact
linear interpolation between the caller-supplied endpoints. -/
theorem step_writes_lerp (t : Transition) (led : LedState) (now src dest : ℚ)
    (hc : t.cancelled = false) (hf : t.finish_event = false)
    (hp : t.progress now < 1)
    (hs : t.from_brightness = some src) (hd : t.to_brightness = some dest) :
    t.step led now =
      (t, set_brightness led (some (src + t.progress now * (dest - src))),
       [some (src + t.progress now * (dest - src))]) := by
  simp only [Transition.step, hc, hf, Bool.or_self, Bool.false_eq_true, ite_false,
    ne_of_lt hp, hs, hd, Transition.interpolate]

theorem step_writes_lerp_witness :
    Transition.step ⟨2, some 0, some 1, false, false, 0⟩ led0 1 =
      (⟨2, some 0, some 1, false, false, 0⟩, set_brightness led0 (some (1/2)),
       [some (1/2)]) := by
  have hp : Transition.progress ⟨2, some 0, some 1, false, false, 0⟩ 1 = 1/2 := by
    norm_num [Transition.progress, min_def, max_def]
  have h := step_writes_lerp ⟨2, some 0, some 1, false, false, 0⟩ led0 1 0 1
    rfl rfl (by rw [hp]; norm_num) rfl rfl
  rw [h, hp]
  norm_num

/-- Claim C3: once the finish event has been set — by completion or by
`cancel()` — no later sequence of `step()` calls performs any actuator write
(nor changes the transition or the led at all). -/
theorem no_write_after_finish (t : Transition) (led : LedState) (times : List ℚ)
    (h : t.finish_event = true) :
    t.stepMany led times = (t, led, []) :=
  stepMany_of_finished t led times h

theorem no_write_after_finish_witness :
    Transition.stepMany ⟨2, some 0, some 1, true, true, 0⟩ led0 [1, 3, 5] =
      (⟨2, some 0, some 1, true, true, 0⟩, led0, []) :=
  no_write_after_finish ⟨2, some 0, some 1, true, true, 0⟩ led0 [1, 3, 5] rfl

/-- Claim C4 counterexample: constructing a `Transition` is not write-free —
the final statement of the constructor pre-applies `from_brightness`, so creating a
ramp from 0.3 on a led sitting at 0.7 moves the actuator to 0.3 before any
`step()`. -/
theorem create_writes_counterexample :
    (Transition.create led0 1 (some (3/10)) (some (9/10)) 0).2.value = some (3/10) ∧
    led0.value = some (7/10) ∧
    (3/10 : ℚ) ≠ 7/10 := by
  refine ⟨rfl, rfl, by norm_num⟩

/-- Claim C4 as amended: constructing a `Transition` records the start
timestamp and immediately writes `from_brightness` to the actuator (both the
entity attribute and the hardware level become `from_brightness`); the
remaining fields start out as given, not cancelled and not finished. -/
theorem create_records_and_preapplies (led : LedState) (duration : ℚ)
    (fb tb : Option ℚ) (now : ℚ) :
    (Transition.create led duration fb tb now).1.start_time = now ∧
    (Transition.create led duration fb tb now).1.cancelled = false ∧
    (Transition.create led duration fb tb now).1.finish_event = false ∧
    (Transition.create led duration fb tb now).2.value = fb ∧
    (Transition.create led duration fb tb now).2.brightness = fb :=
  ⟨rfl, rfl, rfl, rfl, rfl⟩

/-- Claim C5: a `step()` on a transition that is neither cancelled nor finished
and whose progress equals 1 performs the completion path: it writes exactly
`end_level` to the actuator — that single write, no interpolation write — and
sets the finish event; every subsequent sequence of `step()` calls performs no
further write and changes nothing. -/
theorem finish_writes_end_once (t : Transition) (led : LedState) (now : ℚ)
    (times : List ℚ) (hc : t.cancelled = false) (hf : t.finish_event = false)
    (hp : t.progress now = 1) :
    t.step led now =
      ({ t with finish_event := true }, set_brightness led t.to_brightness,
       [t.to_brightness]) ∧
    Transition.stepMany { t with finish_event := true }
        (set_brightness led t.to_brightness) times =
      ({ t with finish_event := true }, set_brightness led t.to_brightness, []) := by
  constructor
  · simp [Transition.step, hc, hf, hp]
  · exact stepMany_of_finished _ _ _ rfl

theorem finish_writes_end_once_witness :
    Transition.step ⟨0, some 0, some 1, false, false, 0⟩ led0 5 =
      (⟨0, some 0, some 1, false, true, 0⟩, set_brightness led0 (some 1), [some 1]) ∧
    Transition.stepMany ⟨0, some 0, some 1, false, true, 0⟩
        (set_brightness led0 (some 1)) [6, 7] =
      (⟨0, some 0, some 1, false, true, 0⟩, set_brightness led0 (some 1), []) :=
  finish_writes_end_once ⟨0, some 0, some 1, false, false, 0⟩ led0 5 [6, 7] rfl rfl rfl

/-- Claim C6: `progress()` returns 1 whenever `duration == 0`; for positive
duration it returns the elapsed fraction clamped to `[0,1]`; it always lies in
`[0,1]`; and for positive duration it is monotonically non-decreasing in the
sampled time. -/
theorem progress_spec (t : Transition) (now now2 : ℚ) :
    (t.duration = 0 → t.progress now = 1) ∧
    (0 < t.duration →
      t.progress now = max 0 (min 1 ((now - t.start_time) / t.duration))) ∧
    (0 ≤ t.progress now ∧ t.progress now ≤ 1) ∧
    (0 < t.duration → now ≤ now2 → t.progress now ≤ t.progress now2) := by
  refine ⟨fun h => by simp [Transition.progress, h],
    fun h => by simp [Transition.progress, ne_of_gt h], ?_, fun h hn => ?_⟩
  · unfold Transition.progress
    split
    · norm_num
    · exact ⟨le_max_left 0 _, max_le (by norm_num) (min_le_left 1 _)⟩
  · unfold Transition.progress
    rw [if_neg (ne_of_gt h), if_neg (ne_of_gt h)]
    refine max_le_max le_rfl (min_le_min le_rfl ?_)
    exact (div_le_div_iff_of_pos_right h).mpr (by linarith)

theorem progress_spec_witness :
    Transition.progress ⟨0, some 0, some 1, false, false, 0⟩ 3 = 1 ∧
    Transition.progress ⟨1, some 0, some 1, false, false, 0⟩ 3 =
      max 0 (min 1 ((3 - 0) / 1)) ∧
    Transition.progress ⟨1, some 0, some 1, false, false, 0⟩ 2 ≤
      Transition.progress ⟨1, some 0, some 1, false, false, 0⟩ 3 :=
  ⟨(progress_spec ⟨0, some 0, some 1, false, false, 0⟩ 3 3).1 rfl,
   (progress_spec ⟨1, some 0, some 1, false, false, 0⟩ 3 3).2.1 zero_lt_one,
   (progress_spec ⟨1, some 0, some 1, false, false, 0⟩ 2 3).2.2.2 zero_lt_one
     (by norm_num)⟩

/-- Claim C7 counterexample: a transition constructed with duration `-1` keeps
that duration (no clamping to zero) and its `progress()` at a later sample time
is 0, not 1 — the negative elapsed fraction clamps at the lower bound, so the
transition is not treated as instant. -/
theorem negative_duration_counterexample :
    (Transition.create led0 (-1) (some 0) (some 1) 0).1.duration = -1 ∧
    (Transition.create led0 (-1) (some 0) (some 1) 0).1.progress 5 = 0 ∧
    (0 : ℚ) ≠ 1 := by
  refine ⟨rfl, ?_, by norm_num⟩
  norm_num [Transition.create, Transition.progress, min_def, max_def]

/-- Claim C7 as amended: a negative duration never raises, but it is stored
unclamped, and for every sample time at or after construction `progress()`
returns 0 (the ratio of a non-negative elapsed time to a negative duration is
non-positive and clamps at the lower bound), so the transition is not instant
and never reaches the completion branch through `progress()`. -/
theorem negative_duration_progress_zero (led : LedState) (d : ℚ) (fb tb : Option ℚ)
    (now now2 : ℚ) (hd : d < 0) (hn : now ≤ now2) :
    (Transition.create led d fb tb now).1.duration = d ∧
    (Transition.create led d fb tb now).1.progress now2 = 0 := by
  refine ⟨rfl, ?_⟩
  have hne : d ≠ 0 := ne_of_lt hd
  simp only [Transition.create, Transition.progress, hne, ite_false]
  have hx : (now2 - now) / d ≤ 0 := div_nonpos_of_nonneg_of_nonpos (by linarith) hd.le
  rw [min_eq_right (hx.trans zero_le_one), max_eq_left hx]

theorem negative_duration_progress_zero_witness :
    (Transition.create led0 (-2) (some 0) (some 1) 0).1.duration = -2 ∧
    (Transition.create led0 (-2) (some 0) (some 1) 0).1.progress 7 = 0 :=
  negative_duration_progress_zero led0 (-2) (some 0) (some 1) 0 7 (by norm_num)
    (by norm_num)

/-- Claim C9 counterexample: an instant transition completes on its first
`step()` (finish event set, not cancelled); calling `cancel()` on it then
changes observable state — the `cancelled` flag flips from `false` to
`true` — so post-completion `cancel()` is not a state-preserving no-op. -/
theorem cancel_after_completion_counterexample :
    (Transition.step ⟨0, some 0, some 1, false, false, 0⟩ led0 0).1.finish_event
        = true ∧
    (Transition.step ⟨0, some 0, some 1, false, false, 0⟩ led0 0).1.cancelled
        = false ∧
    ((Transition.step ⟨0, some 0, some 1, false, false, 0⟩ led0 0).1.cancel).cancelled
        = true := by
  decide

/-- Claim C9 as amended: after the finish event is set, `step()` is a complete
no-op (state, led and writes unchanged) and `cancel()` performs no actuator
write, keeps the transition finished, and is idempotent from the Cancelled
state — but `cancel()` on a completed, not-yet-cancelled transition does
mutate observable state by setting the `cancelled` flag. -/
theorem terminal_step_noop_cancel_sets_flag (t : Transition) (led : LedState)
    (now : ℚ) (h : t.finish_event = true) :
    t.step led now = (t, led, []) ∧
    t.cancel = { t with cancelled := true } ∧
    t.cancel.finish_event = true ∧
    (t.cancelled = true → t.cancel = t) := by
  refine ⟨?_, ?_, rfl, fun hc => ?_⟩
  · simp [Transition.step, h]
  · cases t
    simp_all [Transition.cancel]
  · cases t
    simp_all [Transition.cancel]

theorem terminal_step_noop_cancel_sets_flag_witness :
    Transition.step ⟨0, some 0, some 1, true, true, 0⟩ led0 4 =
      (⟨0, some 0, some 1, true, true, 0⟩, led0, []) ∧
    Transition.cancel ⟨0, some 0, some 1, true, true, 0⟩ =
      ⟨0, some 0, some 1, true, true, 0⟩ :=
  ⟨(terminal_step_noop_cancel_sets_flag ⟨0, some 0, some 1, true, true, 0⟩ led0 4
      rfl).1,
   (terminal_step_noop_cancel_sets_flag ⟨0, some 0, some 1, true, true, 0⟩ led0 4
      rfl).2.2.2 rfl⟩

/-- Claim C10 counterexample: an instant transition toward the `None` endpoint
on a healthy actuator (`fails = false`).  The `step()` at progress 1 does not
write the `None` value: inside `set_brightness` the logging on light.py line
150 evaluates `_to_hass_brightness(None)`, which raises `TypeError` before any
assignment, so the step raises with the actuator untouched and the finish
event — still `false` in the returned transition — never set. -/
theorem off_endpoint_finish_counterexample :
    Transition.stepE ⟨0, some 1, none, false, false, 0⟩ led0 0 =
      Except.error (⟨0, some 1, none, false, false, 0⟩, led0) ∧
    led0.fails = false :=
  ⟨rfl, rfl⟩

/-- Claim C10 as amended: when `to_brightness` is `None` (the off sentinel), a
`step()` taken on a live transition with progress below 1 performs no actuator
write — the `None` guard suppresses the interpolation — while the `step()` at
progress 1 enters the finish path but writes nothing: `set_brightness(None)`
raises `TypeError` (light.py line 150 computes `None * 255`) before any state
change, so the actuator and the transition are left unchanged, the finish
event is never set, and the exception propagates out of `step()`. -/
theorem off_endpoint_no_write_finish_raises (t : Transition) (led : LedState)
    (now : ℚ) (hc : t.cancelled = false) (hf : t.finish_event = false)
    (ht : t.to_brightness = none) :
    (t.progress now < 1 → t.stepE led now = Except.ok (t, led, [])) ∧
    (t.progress now = 1 → t.stepE led now = Except.error (t, led)) := by
  constructor
  · intro hp
    cases hs : t.from_brightness with
    | none => simp [Transition.stepE, hc, hf, ne_of_lt hp, ht, hs]
    | some src => simp [Transition.stepE, hc, hf, ne_of_lt hp, ht, hs]
  · intro hp
    simp [Transition.stepE, hc, hf, hp, ht, set_brightnessE]

theorem off_endpoint_no_write_finish_raises_witness :
    Transition.stepE ⟨2, some 1, none, false, false, 0⟩ led0 1 =
      Except.ok (⟨2, some 1, none, false, false, 0⟩, led0, []) ∧
    Transition.stepE ⟨0, some 1, none, false, false, 0⟩ led0 1 =
      Except.error (⟨0, some 1, none, false, false, 0⟩, led0) :=
  ⟨(off_endpoint_no_write_finish_raises ⟨2, some 1, none, false, false, 0⟩ led0 1
      rfl rfl rfl).1 (by norm_num [Transition.progress, min_def, max_def]),
   (off_endpoint_no_write_finish_raises ⟨0, some 1, none, false, false, 0⟩ led0 1
      rfl rfl rfl).2 rfl⟩

/-- Claim C2 refuted (code bug): three instant transitions 0, 1, 2 are active;
on one pass of the `for` loop, stepping 0 finishes it and `remove` deletes it
from the list being iterated, which shifts the later elements under the
cursor — transition 1 is silently skipped this pass (only 0 and 2 are
stepped) and remains in the list afterwards. -/
theorem loop_pass_skips_after_removal :
    (transition_loop_pass 0 sigma3 [0, 1, 2]).2.2 = [0, 2] ∧
    (transition_loop_pass 0 sigma3 [0, 1, 2]).2.1 = [1] := by
  decide

/-- Claim C8 counterexample: two active instant transitions; the first drives
an actuator whose write raises.  On that pass the exception propagates: the
loop aborts (flag `true`), the failing transition 0 is *not* dropped from the
active list, and transition 1 is never stepped — the failure is not isolated. -/
theorem write_failure_counterexample :
    (transition_loop_passE 0 sigma8 [0, 1]).2.2.2 = true ∧
    (transition_loop_passE 0 sigma8 [0, 1]).2.1 = [0, 1] ∧
    (transition_loop_passE 0 sigma8 [0, 1]).2.2.1 = [0] := by
  decide

/-- Claim C8 as amended: when the actuator write of the first transition in
the active list raises during a pass, the failure is not isolated — the
exception escapes the `for` loop, so the pass ends at once with only that
transition visited, the active list unchanged (the failing transition is not
dropped), and every other transition unstepped; the worker loop aborts. -/
theorem write_failure_aborts_pass (now : ℚ) (σ : Nat → Transition × LedState)
    (id : Nat) (rest : List Nat) (t2 : Transition) (led2 : LedState)
    (h : Transition.stepE (σ id).1 (σ id).2 now = Except.error (t2, led2)) :
    transition_loop_passE now σ (id :: rest) =
      (update σ id (t2, led2), id :: rest, [id], true) := by
  simp [transition_loop_passE, transition_loop_goE, h]

theorem write_failure_aborts_pass_witness :
    transition_loop_passE 0 sigma8 [0, 1] =
      (update sigma8 0 (⟨0, some 0, some 1, false, false, 0⟩,
        ⟨some 1, some 0, false, true⟩), [0, 1], [0], true) :=
  write_failure_aborts_pass 0 sigma8 0 [1] ⟨0, some 0, some 1, false, false, 0⟩
    ⟨some 1, some 0, false, true⟩ rfl
